import Mathlib

/-!
Verification of the Catalog Resolution & Resilient Cache subsystem of the
Bohemia Conductor bot (src/bot/main.py), as a shallow embedding in Lean 4.

The embedding mirrors the Python source:
* Python strings are Lean `String`s; `str.lower()` is `pyLower`
  (faithful on the ASCII data the bot handles).
* The regular expressions used by the source are tiny fixed patterns
  (digit runs, word boundaries, a literal followed by whitespace/digit/end);
  each is embedded as an executable function on character lists.
* Stateful code (the TTL caches of JotFormHelper) is explicit state passing
  over a `CacheState` record; fallible external calls are `Except` values.
* The external classifier (ChatGPT) is an oracle parameter: the resolver is
  modelled as a function of the (already stripped) classifier response text.
-/

/-! ## Python string primitives -/

/-- Python whitespace for `str.split()` and the regex class `\s`
(space, tab, newline, carriage return, vertical tab, form feed). -/
def pyIsSpace (c : Char) : Bool :=
  c = ' ' || c = '\t' || c = '\n' || c = '\r' || c = '\x0b' || c = '\x0c'

/-- A word character for the regex `\b` boundary (Python `\w` on the
ASCII data the bot handles): letters, digits and underscore. -/
def isWordChar (c : Char) : Bool :=
  c.isAlphanum || c = '_'

/-- Wordness of an optional character; the edge of the string counts as
a non-word position for `\b`. -/
def wordness : Option Char → Bool
  | none => false
  | some c => isWordChar c

/-- Python `needle in haystack` on character lists: `needle` is a prefix of
some suffix of `haystack`. -/
def listIn (needle : List Char) : List Char → Bool
  | [] => needle.isPrefixOf ([] : List Char)
  | c :: cs => needle.isPrefixOf (c :: cs) || listIn needle cs

/-- Python substring containment `needle in haystack`. -/
def pyIn (needle haystack : String) : Bool :=
  listIn needle.toList haystack.toList

/-- Python `str.lower()` (faithful on ASCII). -/
def pyLower (s : String) : String :=
  String.mk (s.toList.map Char.toLower)

/-- The Python slice `s[:k]`. -/
def pyTake (k : Nat) (s : String) : String :=
  String.mk (s.toList.take k)

/-- Helper for `re.findall(r'\d+', s)`: accumulates the current digit run
(reversed) while scanning the remaining characters. -/
def digitRunsAux (cur : List Char) : List Char → List String
  | [] => if cur = [] then [] else [String.mk cur.reverse]
  | c :: cs =>
    if c.isDigit then digitRunsAux (c :: cur) cs
    else if cur = [] then digitRunsAux [] cs
    else String.mk cur.reverse :: digitRunsAux [] cs

/-- `re.findall(r'\d+', s)`: the maximal runs of digits in `s`, in order. -/
def digitRuns (s : String) : List String :=
  digitRunsAux [] s.toList

/-- Helper for Python `str.split()`: split on runs of whitespace,
discarding empty pieces. -/
def pySplitAux (cur : List Char) : List Char → List String
  | [] => if cur = [] then [] else [String.mk cur.reverse]
  | c :: cs =>
    if pyIsSpace c then
      if cur = [] then pySplitAux [] cs
      else String.mk cur.reverse :: pySplitAux [] cs
    else pySplitAux (c :: cur) cs

/-- Python `str.split()` with no argument. -/
def pySplit (s : String) : List String :=
  pySplitAux [] s.toList

/-- Python `str.replace(old, new)` for single-character patterns. -/
def pyReplaceChar (s : String) (old new : Char) : String :=
  String.mk (s.toList.map (fun c => if c = old then new else c))

/-- One match attempt of the regex `\b LIT (?:\s|\d|$)` at the position
between `prev` and `rest`: a word boundary, then the literal, then a
whitespace character, a digit, or the end of the string. -/
def matchLitThenSpaceDigitEnd (lit : List Char) (prev : Option Char) (rest : List Char) : Bool :=
  (wordness prev != wordness rest.head?) && lit.isPrefixOf rest &&
    (match (rest.drop lit.length).head? with
     | none => true
     | some c => pyIsSpace c || c.isDigit)

/-- `re.search` for the pattern `\b LIT (?:\s|\d|$)`: try every position. -/
def searchLitThenSpaceDigitEnd (lit : List Char) : Option Char → List Char → Bool
  | prev, [] => matchLitThenSpaceDigitEnd lit prev []
  | prev, c :: cs =>
    matchLitThenSpaceDigitEnd lit prev (c :: cs) || searchLitThenSpaceDigitEnd lit (some c) cs

/-- `re.search(r'\b' + re.escape(lit) + r'(?:\s|\d|$)', msg)` as a Bool. -/
def reSearchLitSpaceDigitEnd (lit msg : String) : Bool :=
  searchLitThenSpaceDigitEnd lit.toList none msg.toList

/-- One match attempt of the regex `\b LIT \b` at the position between
`prev` and `rest`: word boundaries on both sides of the literal. -/
def matchLitWholeWord (lit : List Char) (prev : Option Char) (rest : List Char) : Bool :=
  (wordness prev != wordness rest.head?) && lit.isPrefixOf rest &&
    (wordness lit.getLast? != wordness (rest.drop lit.length).head?)

/-- `re.search` for the pattern `\b LIT \b`: try every position. -/
def searchLitWholeWord (lit : List Char) : Option Char → List Char → Bool
  | prev, [] => matchLitWholeWord lit prev []
  | prev, c :: cs =>
    matchLitWholeWord lit prev (c :: cs) || searchLitWholeWord lit (some c) cs

/-- `re.search(rf'\b{lit}\b', msg)` as a Bool (the month tokens contain
no regex metacharacters). -/
def reSearchWholeWord (lit msg : String) : Bool :=
  searchLitWholeWord lit.toList none msg.toList

/-! ## ProductMatcher: fuzzy_match_product_name (src/bot/main.py:1208) -/

/-- Numeric-token bonus of `fuzzy_match_product_name`: +3 when the product
name has at least one digit run and every digit run of the product name also
occurs as a digit run of the message. -/
def numericBonus (message_lower product_name_lower : String) : Nat :=
  let product_numbers := digitRuns product_name_lower
  let numbers_in_message := digitRuns message_lower
  if product_numbers ≠ [] ∧ product_numbers.all (fun num => num ∈ numbers_in_message) then 3
  else 0

/-- One iteration of the prefix loop of `fuzzy_match_product_name`: for
prefix length `k`, if `k ≤ len(main_word)` and the prefix occurs in the
message at a word boundary followed by whitespace, a digit, or the end of
the string, contribute `min k 3`. -/
def prefixLoopTerm (message_lower main_word : String) (k : Nat) : Nat :=
  if k ≤ main_word.length ∧ reSearchLitSpaceDigitEnd (pyTake k main_word) message_lower then
    min k 3
  else 0

/-- The prefix-bonus block of `fuzzy_match_product_name`: attempted only
when the first word has length at least 4; the loop runs over prefix
lengths 1,2,3,4,5. -/
def prefixBonus (message_lower main_word : String) : Nat :=
  if 4 ≤ main_word.length then
    prefixLoopTerm message_lower main_word 1 + prefixLoopTerm message_lower main_word 2 +
      prefixLoopTerm message_lower main_word 3 + prefixLoopTerm message_lower main_word 4 +
      prefixLoopTerm message_lower main_word 5
  else 0

/-- Whole-word bonus: +2 when the first word of the product name appears
anywhere in the message. -/
def wholeWordBonus (message_lower main_word : String) : Nat :=
  if pyIn main_word message_lower then 2 else 0

/-- One vowel-substitution check: +1 when the mutated word occurs in the
message and has length greater than 3. -/
def vowelVariationTerm (message_lower variation : String) : Nat :=
  if pyIn variation message_lower ∧ 3 < variation.length then 1 else 0

/-- The vowel-substitution block: the four substitutions e→i, i→e, o→a,
a→o applied to the first word, +1 each. -/
def vowelBonus (message_lower main_word : String) : Nat :=
  vowelVariationTerm message_lower (pyReplaceChar main_word 'e' 'i') +
    vowelVariationTerm message_lower (pyReplaceChar main_word 'i' 'e') +
    vowelVariationTerm message_lower (pyReplaceChar main_word 'o' 'a') +
    vowelVariationTerm message_lower (pyReplaceChar main_word 'a' 'o')

/-- `fuzzy_match_product_name(message_lower, product_name_lower)`
(src/bot/main.py:1208): returns 0 when the product name splits into no
words; returns 10 on a verbatim substring match; otherwise accumulates the
numeric, prefix, whole-word and vowel-substitution bonuses. -/
def fuzzy_match_product_name (message_lower product_name_lower : String) : Nat :=
  match pySplit product_name_lower with
  | [] => 0
  | main_word :: _ =>
    if pyIn product_name_lower message_lower then 10
    else
      numericBonus message_lower product_name_lower +
        prefixBonus message_lower main_word +
        wholeWordBonus message_lower main_word +
        vowelBonus message_lower main_word

/-! ## Data model: cached catalog records and products -/

/-- One value of the forms cache (`JotFormHelper.get_all_forms`,
src/bot/main.py:428): title, creation timestamp, and the latest submission
timestamp (`latestActivityAt`), all display strings as in the source. -/
structure FormData where
  title : String
  created : String
  latest_submission : String
deriving DecidableEq, Repr

/-- One cleaned product record (`JotFormHelper.clean_products`,
src/bot/main.py:603): the resolver only reads `name`. -/
structure Product where
  name : String
  price : String
  description : String
deriving DecidableEq, Repr

/-- The value returned by `analyze_message_for_gb`: Python returns either a
single form-id string or a list of form ids (possibly empty). -/
inductive GBResult where
  | one : String → GBResult
  | many : List String → GBResult
deriving DecidableEq, Repr

/-- Python dict key membership `k in d` for an association list. -/
def dictMem {α : Type} (d : List (String × α)) (k : String) : Bool :=
  (d.lookup k).isSome

/-! ## find_form_by_product_names (src/bot/main.py:1267) -/

/-- The per-form total in the product loop of `find_form_by_product_names`:
products with an empty or `N/A` name are skipped; every other product's
fuzzy score is accumulated (scores of 0 contribute nothing either way). -/
def product_total_score (message_lower : String) (products : List Product) : Nat :=
  products.foldl
    (fun acc p =>
      if p.name ≠ "" ∧ p.name ≠ "N/A" then acc + fuzzy_match_product_name message_lower (pyLower p.name)
      else acc)
    0

/-- The `form_matches` map built by `find_form_by_product_names`: for each
form (in the iteration order of `available_forms`) whose product list is
non-empty and whose total score is positive, the pair (form id, total). -/
def form_matches (message_lower : String) (available_forms : List (String × FormData))
    (products : String → List Product) : List (String × Nat) :=
  available_forms.filterMap
    (fun fd =>
      let ps := products fd.1
      if ps = [] then none
      else
        let total := product_total_score message_lower ps
        if 0 < total then some (fd.1, total) else none)

/-- Insertion step of a stable descending sort by score: the new element is
placed before the first element whose score is not larger, so equal-score
elements keep their original relative order, exactly as Python's stable
`sorted(..., key=score, reverse=True)`. -/
def scoreInsert (x : String × Nat) : List (String × Nat) → List (String × Nat)
  | [] => [x]
  | y :: ys => if x.2 < y.2 then y :: scoreInsert x ys else x :: y :: ys

/-- Stable descending sort by score, modelling
`sorted(form_matches.items(), key=lambda x: x[1]['score'], reverse=True)`. -/
def scoreSortDesc : List (String × Nat) → List (String × Nat)
  | [] => []
  | x :: xs => scoreInsert x (scoreSortDesc xs)

/-- `find_form_by_product_names(message_text, available_forms,
return_all_matches=True)` (src/bot/main.py:1267): all matching form ids,
sorted by score (best first); the empty list when nothing matches. The
per-form product lists come from the cache getter, abstracted here as the
total function `products`. -/
def find_form_by_product_names_all (message_text : String)
    (available_forms : List (String × FormData)) (products : String → List Product) : List String :=
  (scoreSortDesc (form_matches (pyLower message_text) available_forms products)).map Prod.fst

/-! ## Month detection and form-specific queries (src/bot/main.py:1344-1404) -/

/-- `find_forms_by_month(month_name, available_forms)`
(src/bot/main.py:1344): all form ids whose lowercased title contains the
lowercased month name. -/
def find_forms_by_month (month_name : String) (available_forms : List (String × FormData)) : List String :=
  available_forms.filterMap
    (fun fd => if pyIn (pyLower month_name) (pyLower fd.2.title) then some fd.1 else none)

/-- The month token list of `detect_month_in_message`
(src/bot/main.py:1365): full names first, then 3-letter abbreviations
(without `may`). -/
def monthTokens : List String :=
  ["january", "february", "march", "april", "may", "june",
   "july", "august", "september", "october", "november", "december",
   "jan", "feb", "mar", "apr", "jun", "jul", "aug", "sep", "oct", "nov", "dec"]

/-- The abbreviation-to-full-name mapping of `detect_month_in_message`
(src/bot/main.py:1377). -/
def monthMapping : List (String × String) :=
  [("jan", "january"), ("feb", "february"), ("mar", "march"),
   ("apr", "april"), ("jun", "june"), ("jul", "july"),
   ("aug", "august"), ("sep", "september"), ("oct", "october"),
   ("nov", "november"), ("dec", "december")]

/-- `detect_month_in_message(message_text)` (src/bot/main.py:1360): the
first month token that occurs in the lowercased message at word
boundaries, expanded to its full name. -/
def detect_month_in_message (message_text : String) : Option String :=
  (monthTokens.find? (fun month => reSearchWholeWord month (pyLower message_text))).map
    (fun month => ((monthMapping.lookup month).getD month))

/-- The keyword list of `is_form_specific_query` (src/bot/main.py:1396). -/
def formKeywords : List String :=
  ["form", "gb", "g&b", "group buy", "groupbuy", "order form",
   "current", "latest", "newest", "recent", "this month",
   "halloween", "fireworks", "holiday", "expo", "november", "october",
   "january", "february", "march", "april", "may", "june",
   "july", "august", "september", "december"]

/-- `is_form_specific_query(message_text)` (src/bot/main.py:1388): true
when any keyword occurs as a substring of the lowercased message. -/
def is_form_specific_query (message_text : String) : Bool :=
  formKeywords.any (fun keyword => pyIn keyword (pyLower message_text))

/-! ## analyze_message_for_gb (src/bot/main.py:1407)

The pipeline is split by its PRIORITY comments into three stage functions.
The external classifier call is abstracted by the parameter `result`: the
already-stripped text `response.choices[0].message.content.strip()` of the
ChatGPT response for this query. -/

/-- PRIORITY 3 of `analyze_message_for_gb` (src/bot/main.py:1448-1510):
a classifier response that is a known form id resolves to that single
form; any other response (the literal `UNCLEAR` or an unknown id) falls
back to the product search over all forms, returning all matches. -/
def analyze_stage3 (message_text : String) (available_forms : List (String × FormData))
    (products : String → List Product) (result : String) : GBResult :=
  if result ≠ "UNCLEAR" ∧ dictMem available_forms result then .one result
  else if result ≠ "UNCLEAR" then
    .many (find_form_by_product_names_all message_text available_forms products)
  else
    .many (find_form_by_product_names_all message_text available_forms products)

/-- PRIORITY 2 of `analyze_message_for_gb` (src/bot/main.py:1434-1446):
when the message mentions a month, more than one matching form title
returns the whole list, exactly one returns that id, and zero matches fall
through to the classifier stage. -/
def analyze_stage2 (message_text : String) (available_forms : List (String × FormData))
    (products : String → List Product) (result : String) : GBResult :=
  match detect_month_in_message message_text with
  | some month =>
    match find_forms_by_month month available_forms with
    | [] => analyze_stage3 message_text available_forms products result
    | [f] => .one f
    | f1 :: f2 :: rest => .many (f1 :: f2 :: rest)
  | none => analyze_stage3 message_text available_forms products result

/-- `analyze_message_for_gb(message_text, available_forms)`
(src/bot/main.py:1407): PRIORITY 1 runs the product search first only for
queries that are not form-specific, returning all matches when any exist;
otherwise the pipeline continues with the month pass and the classifier. -/
def analyze_message_for_gb (message_text : String) (available_forms : List (String × FormData))
    (products : String → List Product) (result : String) : GBResult :=
  if ¬ is_form_specific_query message_text then
    match find_form_by_product_names_all message_text available_forms products with
    | [] => analyze_stage2 message_text available_forms products result
    | p :: ps => .many (p :: ps)
  else analyze_stage2 message_text available_forms products result

/-! ## RetryExecutor: call_openai_with_retry (src/bot/main.py:207) and
JotFormHelper._call_with_retry (src/bot/main.py:348)

Both wrappers run the same loop: `for attempt in range(1, max_retries+1)`,
returning on success, and on an exception either re-raising as
`ExternalServiceError` (when `attempt >= max_retries`) or sleeping
`backoff_seconds * 2 ** (attempt - 1)` and retrying. The attempt function
is modelled as a map from attempt index (1-based) to an `Except` outcome,
and the trace records how many times it was invoked and the sleeps
performed. -/

/-- Observable trace of one run of the retry wrapper: how many times the
attempt function was called, the sleep durations (seconds, in order), and
the outcome. An `Except.error (some e)` is the `ExternalServiceError`
raised from the final attempt, wrapping the last underlying error `e`;
`Except.error none` is the post-loop raise (line 225), reachable only when
`max_retries < 1`. -/
structure RetryTrace (E A : Type) where
  calls : Nat
  sleeps : List Nat
  result : Except (Option E) A
deriving Repr

/-- The retry loop body, indexed by the current 1-based `attempt` and the
number of loop iterations still available (`max_retries - attempt + 1`). -/
def retryLoop (call_fn : Nat → Except E A) (backoff_seconds : Nat) :
    Nat → Nat → RetryTrace E A
  | _, 0 => ⟨0, [], .error none⟩
  | attempt, remaining + 1 =>
    match call_fn attempt with
    | .ok a => ⟨1, [], .ok a⟩
    | .error e =>
      if remaining = 0 then ⟨1, [], .error (some e)⟩
      else
        let rest := retryLoop call_fn backoff_seconds (attempt + 1) remaining
        ⟨rest.calls + 1, backoff_seconds * 2 ^ (attempt - 1) :: rest.sleeps, rest.result⟩

/-- `call_openai_with_retry(operation_name, call_fn, max_retries,
backoff_seconds, ...)` (src/bot/main.py:207), identically
`JotFormHelper._call_with_retry` (src/bot/main.py:348): attempts start at
1 and at most `max_retries` are made. -/
def call_with_retry (call_fn : Nat → Except E A) (max_retries backoff_seconds : Nat) :
    RetryTrace E A :=
  retryLoop call_fn backoff_seconds 1 max_retries

/-! ## TTL caches of JotFormHelper (src/bot/main.py:335)

The mutable caches of the `JotFormHelper` instance are a record threaded
explicitly. Python dicts are association lists (`dictSet` reproduces
in-place assignment: an existing key keeps its position, a new key is
appended). Each getter takes the current wall-clock time `now` and the
outcome of its refresh loader as an `Except`:
* for `get_all_forms`, the loader stands for the retry-wrapped
  `client.get_forms()` plus per-form submission enrichment block
  (src/bot/main.py:398-434), yielding the new forms map;
* for `get_products`, the loader stands for the retry-wrapped
  `client.get_form_properties(form_id)` followed by `clean_products`
  (src/bot/main.py:570-576), yielding the cleaned product list;
* for `get_form_metadata`, the loader stands for the un-retried
  `get_form_properties`/`get_form_questions` calls and metadata
  extraction (src/bot/main.py:474-527), yielding the metadata record. -/

/-- The two kinds of exception the getters distinguish:
`ExternalServiceError` (retries exhausted) versus any other exception. -/
inductive PyErr where
  | externalService
  | other
deriving DecidableEq, Repr

/-- Python dict assignment `d[k] = v` on an association list. -/
def dictSet {α : Type} : List (String × α) → String → α → List (String × α)
  | [], k, v => [(k, v)]
  | (k1, v1) :: rest, k, v =>
    if k1 = k then (k, v) :: rest else (k1, v1) :: dictSet rest k v

/-- The extended metadata record built by `get_form_metadata`
(src/bot/main.py:479): `properties` is kept abstract as key/value pairs. -/
structure Metadata where
  properties : List (String × String)
  vendor : Option String
  suppliers : List String
  notes : Option String
  deadline : Option String
  closing_date : Option String
deriving DecidableEq, Repr

/-- The dict `get_form_metadata` returns when the fetch fails and no stale
entry exists (src/bot/main.py:543). -/
def defaultMetadata : Metadata :=
  ⟨[], none, [], none, none, none⟩

/-- The mutable cache fields of `JotFormHelper.__init__`
(src/bot/main.py:336-344). -/
structure CacheState where
  forms_cache : List (String × FormData)
  forms_cache_timestamp : Nat
  products_cache : List (String × List Product)
  products_cache_timestamps : List (String × Nat)
  form_metadata_cache : List (String × Metadata)
  form_metadata_cache_timestamps : List (String × Nat)
deriving DecidableEq, Repr

/-- The freshly initialised helper: empty caches, timestamps 0. -/
def initialCacheState : CacheState :=
  ⟨[], 0, [], [], [], []⟩

/-- `CACHE_TTL_SECONDS` (src/bot/main.py:32), at its default of 300. -/
def CACHE_TTL_SECONDS : Nat := 300

/-- `JotFormHelper.is_cache_expired(timestamp)` (src/bot/main.py:368):
`(time.time() - timestamp) > CACHE_TTL_SECONDS` (the clock never runs
backwards, so Nat subtraction is faithful). -/
def is_cache_expired (now timestamp : Nat) : Bool :=
  CACHE_TTL_SECONDS < now - timestamp

/-- `JotFormHelper.get_all_forms(force_refresh)` (src/bot/main.py:382):
the cache is valid when non-empty (Python truthiness of the dict), fresh,
and no refresh is forced; on loader failure of either exception kind, a
non-empty cache is returned stale, otherwise the error propagates. -/
def get_all_forms (st : CacheState) (now : Nat)
    (loader : Except PyErr (List (String × FormData))) (force_refresh : Bool) :
    Except PyErr (List (String × FormData)) × CacheState :=
  let cache_valid :=
    !st.forms_cache.isEmpty && !is_cache_expired now st.forms_cache_timestamp && !force_refresh
  if cache_valid then (.ok st.forms_cache, st)
  else
    match loader with
    | .ok forms =>
      (.ok forms, { st with forms_cache := forms, forms_cache_timestamp := now })
    | .error e =>
      if !st.forms_cache.isEmpty then (.ok st.forms_cache, st) else (.error e, st)

/-- `JotFormHelper.get_products(form_id, force_refresh)`
(src/bot/main.py:554): per-form entry and timestamp; on
`ExternalServiceError` a stale entry is returned, else the error
propagates; on any other exception a stale entry is returned, else the
empty list. -/
def get_products (st : CacheState) (form_id : String) (now : Nat)
    (loader : Except PyErr (List Product)) (force_refresh : Bool) :
    Except PyErr (List Product) × CacheState :=
  let cache_timestamp := (st.products_cache_timestamps.lookup form_id).getD 0
  let cached := st.products_cache.lookup form_id
  let cache_valid := cached.isSome && !is_cache_expired now cache_timestamp && !force_refresh
  if cache_valid then (.ok (cached.getD []), st)
  else
    match loader with
    | .ok clean_products =>
      (.ok clean_products,
        { st with
          products_cache := dictSet st.products_cache form_id clean_products,
          products_cache_timestamps := dictSet st.products_cache_timestamps form_id now })
    | .error .externalService =>
      match cached with
      | some v => (.ok v, st)
      | none => (.error .externalService, st)
    | .error .other =>
      match cached with
      | some v => (.ok v, st)
      | none => (.ok [], st)

/-- `JotFormHelper.get_form_metadata(form_id, force_refresh)`
(src/bot/main.py:456): the fetch is not routed through the retry wrapper;
on any exception a stale entry is returned when present, otherwise a
default metadata dict is returned — the failure never propagates. -/
def get_form_metadata (st : CacheState) (form_id : String) (now : Nat)
    (loader : Except PyErr Metadata) (force_refresh : Bool) :
    Except PyErr Metadata × CacheState :=
  let cache_timestamp := (st.form_metadata_cache_timestamps.lookup form_id).getD 0
  let cached := st.form_metadata_cache.lookup form_id
  let cache_valid := cached.isSome && !is_cache_expired now cache_timestamp && !force_refresh
  if cache_valid then (.ok (cached.getD defaultMetadata), st)
  else
    match loader with
    | .ok metadata =>
      (.ok metadata,
        { st with
          form_metadata_cache := dictSet st.form_metadata_cache form_id metadata,
          form_metadata_cache_timestamps := dictSet st.form_metadata_cache_timestamps form_id now })
    | .error _ =>
      match cached with
      | some v => (.ok v, st)
      | none => (.ok defaultMetadata, st)

/-! ## Helper lemmas -/

/-- Splitting an all-whitespace character list yields no words. -/
theorem pySplitAux_nil_of_space (l : List Char) (h : l.all pyIsSpace = true) :
    pySplitAux [] l = [] := by
  induction l with
  | nil => rfl
  | cons c cs ih =>
    simp only [List.all_cons, Bool.and_eq_true] at h
    simp [pySplitAux, h.1, ih h.2]

/-- The numeric-token bonus is at most 3. -/
theorem numericBonus_le (m n : String) : numericBonus m n ≤ 3 := by
  simp only [numericBonus]
  split <;> omega

/-- Each prefix-loop iteration contributes at most `min k 3`. -/
theorem prefixLoopTerm_le (m w : String) (k : Nat) : prefixLoopTerm m w k ≤ min k 3 := by
  unfold prefixLoopTerm
  split
  · exact Nat.le_refl _
  · exact Nat.zero_le _

/-- The prefix bonus is at most 1 + 2 + 3 + 3 + 3 = 12. -/
theorem prefixBonus_le (m w : String) : prefixBonus m w ≤ 12 := by
  unfold prefixBonus
  split
  · have h1 := prefixLoopTerm_le m w 1
    have h2 := prefixLoopTerm_le m w 2
    have h3 := prefixLoopTerm_le m w 3
    have h4 := prefixLoopTerm_le m w 4
    have h5 := prefixLoopTerm_le m w 5
    simp only [Nat.min_def] at h1 h2 h3 h4 h5
    norm_num at h1 h2 h3 h4 h5
    omega
  · exact Nat.zero_le _

/-- The whole-word bonus is at most 2. -/
theorem wholeWordBonus_le (m w : String) : wholeWordBonus m w ≤ 2 := by
  unfold wholeWordBonus
  split <;> omega

/-- Each vowel-substitution check contributes at most 1. -/
theorem vowelVariationTerm_le (m v : String) : vowelVariationTerm m v ≤ 1 := by
  unfold vowelVariationTerm
  split <;> omega

/-- The vowel-substitution bonus is at most 4. -/
theorem vowelBonus_le (m w : String) : vowelBonus m w ≤ 4 := by
  unfold vowelBonus
  have h1 := vowelVariationTerm_le m (pyReplaceChar w 'e' 'i')
  have h2 := vowelVariationTerm_le m (pyReplaceChar w 'i' 'e')
  have h3 := vowelVariationTerm_le m (pyReplaceChar w 'o' 'a')
  have h4 := vowelVariationTerm_le m (pyReplaceChar w 'a' 'o')
  omega

/-! ## C1: verbatim substring match -/

/-- C1 counterexample: the empty product name is a substring of every
query, yet `fuzzy_match_product_name` returns 0 and not 10, because the
empty-word bail-out precedes the substring rule. -/
theorem fuzzy_empty_name_substring_cex :
    pyIn "" "x" = true ∧ fuzzy_match_product_name "x" "" = 0 := by
  constructor <;> decide

/-- C1 (amended): for every query and every product name containing at
least one non-whitespace character (so that it splits into at least one
word), if the product name is a substring of the query then the fuzzy
score is exactly 10. -/
theorem fuzzy_substring_scores_ten (message_lower product_name_lower : String)
    (h1 : pySplit product_name_lower ≠ [])
    (h2 : pyIn product_name_lower message_lower = true) :
    fuzzy_match_product_name message_lower product_name_lower = 10 := by
  rcases hs : pySplit product_name_lower with _ | ⟨mw, rest⟩
  · exact absurd hs h1
  · simp [fuzzy_match_product_name, hs, h2]

/-- C1 witness: the theorem applied at the query "the house" and the
product name "house". -/
theorem fuzzy_substring_scores_ten_witness :
    pySplit "house" ≠ [] ∧ pyIn "house" "the house" = true ∧
      fuzzy_match_product_name "the house" "house" = 10 :=
  ⟨by decide, by decide, fuzzy_substring_scores_ten "the house" "house" (by decide) (by decide)⟩

/-! ## C10: whitespace-only product names -/

/-- C10: a product name that is empty or consists only of whitespace
splits into no words, so `fuzzy_match_product_name` returns 0 for every
query — the substring rule is never reached. -/
theorem fuzzy_blank_name_scores_zero (message_lower product_name_lower : String)
    (h : product_name_lower.toList.all pyIsSpace = true) :
    fuzzy_match_product_name message_lower product_name_lower = 0 := by
  have hs : pySplit product_name_lower = [] := pySplitAux_nil_of_space _ h
  simp [fuzzy_match_product_name, hs]

/-- C10 witness: the theorem applied at the whitespace-only name "  ". -/
theorem fuzzy_blank_name_scores_zero_witness :
    ("  ").toList.all pyIsSpace = true ∧ fuzzy_match_product_name "price of reta 30" "  " = 0 :=
  ⟨by decide, fuzzy_blank_name_scores_zero "price of reta 30" "  " (by decide)⟩

/-! ## C2: the accumulated bonuses are not capped at 10 -/

/-- C2 counterexample: a query matching all five prefixes of the product
name's first word at word boundaries accumulates 3 (numeric) + 12 (prefix)
+ 2 (whole word) + 3 (vowel substitutions) = 20 > 10, so the verbatim
substring score of 10 is not the maximum of the function. -/
theorem fuzzy_score_exceeds_ten_cex :
    fuzzy_match_product_name "a aa aaa aaaa aaaaa 9" "aaaaa x9" = 20 := by
  decide

/-- C2 (amended): the verbatim-substring rule returns exactly 10, but the
accumulated bonuses are bounded only by 3 + 12 + 2 + 4 = 21, so the score
of every query/name pair is at most 21 (not 10). -/
theorem fuzzy_score_le_21 (message_lower product_name_lower : String) :
    fuzzy_match_product_name message_lower product_name_lower ≤ 21 := by
  rcases hs : pySplit product_name_lower with _ | ⟨mw, rest⟩ <;>
    simp only [fuzzy_match_product_name, hs]
  · omega
  · split
    · omega
    · have h1 := numericBonus_le message_lower product_name_lower
      have h2 := prefixBonus_le message_lower mw
      have h3 := wholeWordBonus_le message_lower mw
      have h4 := vowelBonus_le message_lower mw
      omega

/-! ## Sample data shared by the resolver theorems -/

/-- Two cached catalogs whose titles both contain "January". -/
def januaryForms : List (String × FormData) :=
  [("1", ⟨"January GB A", "2025-01-01", "2025-01-05"⟩),
   ("2", ⟨"January GB B", "2025-01-02", "2025-01-06"⟩)]

/-- A product getter that returns no products for any form. -/
def noProducts : String → List Product := fun _ => []

/-! ## C3: form-specific queries and the classifier stage -/

/-- C3 counterexample: "January GB" is a form-specific query, yet the
resolver does not go directly to the classifier stage — the month-name
pass resolves it to both January catalogs, while the classifier stage
alone (here answering the valid id "1") would have resolved it to a single
catalog. Only the product-first pass is skipped. -/
theorem form_specific_runs_month_pass_cex :
    is_form_specific_query "January GB" = true ∧
      analyze_message_for_gb "January GB" januaryForms noProducts "1" = .many ["1", "2"] ∧
      analyze_stage3 "January GB" januaryForms noProducts "1" = .one "1" := by
  refine ⟨by decide, by decide, by decide⟩

/-- C3 (amended): for every form-specific query the resolver skips only
the product-first fuzzy pass; it proceeds to the month-name pass (which
may resolve the query before the classifier is consulted). -/
theorem form_specific_skips_product_pass (message_text : String)
    (available_forms : List (String × FormData)) (products : String → List Product)
    (result : String) (h : is_form_specific_query message_text = true) :
    analyze_message_for_gb message_text available_forms products result =
      analyze_stage2 message_text available_forms products result := by
  simp [analyze_message_for_gb, h]

/-- C3 witness: the theorem applied at the form-specific query
"January GB". -/
theorem form_specific_skips_product_pass_witness :
    is_form_specific_query "January GB" = true ∧
      analyze_message_for_gb "January GB" januaryForms noProducts "1" =
        analyze_stage2 "January GB" januaryForms noProducts "1" :=
  ⟨by decide, form_specific_skips_product_pass "January GB" januaryForms noProducts "1" (by decide)⟩

/-! ## C4: the month-name pass -/

/-- C4: when the message contains a month token and the product-fuzzy pass
finds nothing, the resolver returns all title-matching catalogs when more
than one matches, the single catalog when exactly one matches, and falls
through to the classifier stage when none matches. -/
theorem month_pass_resolution (message_text month : String)
    (available_forms : List (String × FormData)) (products : String → List Product)
    (result : String)
    (h1 : detect_month_in_message message_text = some month)
    (h2 : find_form_by_product_names_all message_text available_forms products = []) :
    (find_forms_by_month month available_forms = [] →
      analyze_message_for_gb message_text available_forms products result =
        analyze_stage3 message_text available_forms products result) ∧
    (∀ f, find_forms_by_month month available_forms = [f] →
      analyze_message_for_gb message_text available_forms products result = .one f) ∧
    (1 < (find_forms_by_month month available_forms).length →
      analyze_message_for_gb message_text available_forms products result =
        .many (find_forms_by_month month available_forms)) := by
  have hstage : analyze_message_for_gb message_text available_forms products result =
      analyze_stage2 message_text available_forms products result := by
    unfold analyze_message_for_gb
    split
    · rw [h2]
    · rfl
  rw [hstage]
  unfold analyze_stage2
  rw [h1]
  dsimp only
  refine ⟨fun h3 => by rw [h3], fun f h3 => by rw [h3], fun h3 => ?_⟩
  rcases hm : find_forms_by_month month available_forms with _ | ⟨f1, t⟩
  · rw [hm] at h3
    simp at h3
  · rcases t with _ | ⟨f2, t2⟩
    · rw [hm] at h3
      simp at h3
    · rfl

/-- C4 witness: the single-match case at the query "june" against one
June-titled catalog with no products. -/
theorem month_pass_resolution_witness :
    detect_month_in_message "june" = some "june" ∧
      find_form_by_product_names_all "june" [("9", ⟨"June GB", "", ""⟩)] noProducts = [] ∧
      analyze_message_for_gb "june" [("9", ⟨"June GB", "", ""⟩)] noProducts "UNCLEAR" = .one "9" :=
  ⟨by decide, by decide,
    (month_pass_resolution "june" "june" [("9", ⟨"June GB", "", ""⟩)] noProducts "UNCLEAR"
        (by decide) (by decide)).2.1 "9" (by decide)⟩

/-! ## C5: ordering of the product-first candidates -/

/-- Membership through `scoreInsert`: an element of the extended list is
the inserted element or an element of the original list. -/
theorem mem_scoreInsert {x y : String × Nat} {l : List (String × Nat)}
    (h : y ∈ scoreInsert x l) : y = x ∨ y ∈ l := by
  induction l with
  | nil => simpa [scoreInsert] using h
  | cons z zs ih =>
    unfold scoreInsert at h
    split at h
    · rcases List.mem_cons.mp h with h1 | h1
      · exact Or.inr (by simp [h1])
      · rcases ih h1 with h2 | h2
        · exact Or.inl h2
        · exact Or.inr (List.mem_cons_of_mem _ h2)
    · rcases List.mem_cons.mp h with h1 | h1
      · exact Or.inl h1
      · exact Or.inr h1

/-- `scoreInsert` preserves the descending-by-score invariant. -/
theorem pairwise_scoreInsert (x : String × Nat) (l : List (String × Nat))
    (h : l.Pairwise (fun a b => b.2 ≤ a.2)) :
    (scoreInsert x l).Pairwise (fun a b => b.2 ≤ a.2) := by
  induction l with
  | nil => simp [scoreInsert]
  | cons z zs ih =>
    rw [List.pairwise_cons] at h
    unfold scoreInsert
    split
    · rename_i hlt
      rw [List.pairwise_cons]
      refine ⟨fun y hy => ?_, ih h.2⟩
      rcases mem_scoreInsert hy with h1 | h1
      · subst h1
        omega
      · exact h.1 y h1
    · rename_i hlt
      rw [List.pairwise_cons]
      refine ⟨fun y hy => ?_, List.pairwise_cons.mpr h⟩
      rcases List.mem_cons.mp hy with h1 | h1
      · subst h1
        omega
      · have := h.1 y h1
        omega

/-- The output of `scoreSortDesc` is sorted descending by score. -/
theorem pairwise_scoreSortDesc (l : List (String × Nat)) :
    (scoreSortDesc l).Pairwise (fun a b => b.2 ≤ a.2) := by
  induction l with
  | nil => simp [scoreSortDesc]
  | cons x xs ih => exact pairwise_scoreInsert x (scoreSortDesc xs) ih

/-- Filtering one score class through `scoreInsert`: the inserted element
lands in front of the class when it belongs to it (every element it was
pushed past has a strictly larger score), and the class is untouched
otherwise. -/
theorem filter_scoreInsert (x : String × Nat) (l : List (String × Nat)) (s : Nat) :
    (scoreInsert x l).filter (fun z => z.2 == s) =
      if x.2 == s then x :: l.filter (fun z => z.2 == s)
      else l.filter (fun z => z.2 == s) := by
  induction l with
  | nil =>
    by_cases hx : x.2 = s <;> simp [scoreInsert, List.filter_cons, hx]
  | cons z zs ih =>
    unfold scoreInsert
    split
    · rename_i hlt
      by_cases hx : x.2 = s
      · have hz : ¬ z.2 = s := by omega
        simp [List.filter_cons, ih, hx, hz]
      · simp [List.filter_cons, ih, hx]
    · by_cases hx : x.2 = s <;> simp [List.filter_cons, hx]

/-- Stability of `scoreSortDesc`: within each score class the sorted list
keeps exactly the original order. This is the behaviour of Python's stable
`sorted`. -/
theorem filter_scoreSortDesc (l : List (String × Nat)) (s : Nat) :
    (scoreSortDesc l).filter (fun z => z.2 == s) = l.filter (fun z => z.2 == s) := by
  induction l with
  | nil => rfl
  | cons x xs ih =>
    unfold scoreSortDesc
    rw [filter_scoreInsert, List.filter_cons, ih]

/-- Two cached catalogs with different recency, where catalog "2" has the
more recent `latest_submission`. -/
def recencyForms : List (String × FormData) :=
  [("1", ⟨"A", "2025-01-01", "2025-01-01"⟩),
   ("2", ⟨"B", "2025-02-01", "2025-02-01"⟩)]

/-- A product getter giving every form the same single product "house". -/
def houseProducts : String → List Product := fun _ => [⟨"house", "5", ""⟩]

/-- C5 counterexample: both catalogs aggregate the same score 10 for the
query "house", catalog "2" has the more recent `latest_submission`
("2025-02-01" versus "2025-01-01"), yet the returned list keeps catalog
"1" first — the tie is resolved by position in `available_forms`, not by
recency. -/
theorem candidate_order_ignores_recency_cex :
    form_matches "house" recencyForms houseProducts = [("1", 10), ("2", 10)] ∧
      (recencyForms.lookup "1").map FormData.latest_submission = some "2025-01-01" ∧
      (recencyForms.lookup "2").map FormData.latest_submission = some "2025-02-01" ∧
      find_form_by_product_names_all "house" recencyForms houseProducts = ["1", "2"] := by
  refine ⟨by decide, by decide, by decide, by decide⟩

/-- C5 (amended): the candidate list of the product-first pass is ordered
descending by aggregate score, and candidates with equal score keep the
order in which their catalogs appear in `available_forms` (Python's stable
sort); `latest_submission` recency is never consulted. -/
theorem candidate_order_sorted_stable (message_text : String)
    (available_forms : List (String × FormData)) (products : String → List Product) (s : Nat) :
    ((scoreSortDesc (form_matches (pyLower message_text) available_forms products)).Pairwise
        (fun a b => b.2 ≤ a.2)) ∧
      (scoreSortDesc (form_matches (pyLower message_text) available_forms products)).filter
          (fun z => z.2 == s) =
        (form_matches (pyLower message_text) available_forms products).filter
          (fun z => z.2 == s) ∧
      find_form_by_product_names_all message_text available_forms products =
        (scoreSortDesc (form_matches (pyLower message_text) available_forms products)).map
          Prod.fst :=
  ⟨pairwise_scoreSortDesc _, filter_scoreSortDesc _ _, rfl⟩

/-! ## C7: the retry wrapper -/

/-- C7: with an attempt function that always raises, `max_retries = 3` and
`backoff_seconds = 1`, the wrapper invokes the attempt function exactly 3
times (never a 4th), sleeps 1 second after the first failure and 2 seconds
after the second (`backoff * 2 ** (attempt-1)`), and raises a single
`ExternalServiceError` wrapping the last underlying error. Every error
outcome takes this path: the source catches bare `Exception`, so all
exception types are retryable. -/
theorem retry_three_attempts {E A : Type} (call_fn : Nat → Except E A) (es : Nat → E)
    (h : ∀ n, call_fn n = .error (es n)) :
    call_with_retry call_fn 3 1 = ⟨3, [1, 2], .error (some (es 3))⟩ := by
  simp [call_with_retry, retryLoop, h 1, h 2, h 3]

/-- C7 witness: the theorem applied to a concrete attempt function that
always fails with error 0, the always-raising hypothesis discharged by
rfl at each attempt index. -/
theorem retry_three_attempts_witness :
    call_with_retry (fun _ : Nat => (Except.error 0 : Except Nat Nat)) 3 1 =
      ⟨3, [1, 2], .error (some 0)⟩ :=
  retry_three_attempts (fun _ => .error 0) (fun _ => 0) (fun _ => rfl)

/-! ## C6: stale fallback of the three cache getters -/

/-- C6 counterexample: `get_form_metadata` with an empty cache and a
failing loader does not propagate the `ExternalServiceError` — it returns
a default metadata dict (moreover the fetch is not retry-wrapped in the
source). The claim's "propagates the failure if no prior entry exists"
fails for the metadata getter. -/
theorem metadata_failure_not_propagated_cex :
    initialCacheState.form_metadata_cache = [] ∧
      get_form_metadata initialCacheState "f1" 0 (.error .externalService) false =
        (.ok defaultMetadata, initialCacheState) := by
  refine ⟨rfl, rfl⟩

/-- C6 (amended): on a loader failure with exhausted retries
(`ExternalServiceError`), `get_all_forms` and `get_products` return the
stale entry when one exists and propagate the failure otherwise (for the
all-forms key, "an entry exists" is the Python truthiness test: the cached
map is non-empty); `get_form_metadata` returns the stale entry when one
exists but returns the default metadata dict instead of propagating when
none exists. -/
theorem cache_stale_fallback (st : CacheState) (now : Nat) (fid : String) :
    (st.forms_cache ≠ [] →
      get_all_forms st now (.error .externalService) false = (.ok st.forms_cache, st)) ∧
    (st.forms_cache = [] →
      get_all_forms st now (.error .externalService) false = (.error .externalService, st)) ∧
    (∀ v, st.products_cache.lookup fid = some v →
      get_products st fid now (.error .externalService) false = (.ok v, st)) ∧
    (st.products_cache.lookup fid = none →
      get_products st fid now (.error .externalService) false = (.error .externalService, st)) ∧
    (∀ m, st.form_metadata_cache.lookup fid = some m →
      get_form_metadata st fid now (.error .externalService) false = (.ok m, st)) ∧
    (st.form_metadata_cache.lookup fid = none →
      get_form_metadata st fid now (.error .externalService) false =
        (.ok defaultMetadata, st)) := by
  refine ⟨?_, ?_, ?_, ?_, ?_, ?_⟩
  · intro h
    have hne : st.forms_cache.isEmpty = false := by
      cases hc : st.forms_cache
      · exact absurd hc h
      · rfl
    simp only [get_all_forms, hne]
    split <;> simp
  · intro h
    have hne : st.forms_cache.isEmpty = true := by simp [h]
    simp [get_all_forms, hne]
  · intro v hv
    simp only [get_products, hv]
    split <;> simp
  · intro hv
    simp [get_products, hv]
  · intro m hm
    simp only [get_form_metadata, hm]
    split <;> simp
  · intro hm
    simp [get_form_metadata, hm]

/-- A helper cache state with one cached form and one cached product list. -/
def sampleCacheState : CacheState :=
  { forms_cache := [("1", ⟨"June GB", "2025-06-01", "2025-06-02"⟩)],
    forms_cache_timestamp := 10,
    products_cache := [("1", [⟨"house", "5", ""⟩])],
    products_cache_timestamps := [("1", 10)],
    form_metadata_cache := [],
    form_metadata_cache_timestamps := [] }

/-- C6 witness: the theorem's products clause applied at a state holding a
stale product entry for form "1". -/
theorem cache_stale_fallback_witness :
    sampleCacheState.products_cache.lookup "1" = some [⟨"house", "5", ""⟩] ∧
      get_products sampleCacheState "1" 1000 (.error .externalService) false =
        (.ok [⟨"house", "5", ""⟩], sampleCacheState) :=
  ⟨rfl, (cache_stale_fallback sampleCacheState 1000 "1").2.2.1 [⟨"house", "5", ""⟩] rfl⟩

/-! ## C8: a second get within the TTL window -/

/-- Any successful `get_all_forms` leaves exactly the returned value in
the forms cache. -/
theorem get_all_forms_ok_cache {st st1 : CacheState} {now : Nat}
    {loader : Except PyErr (List (String × FormData))} {fr : Bool}
    {v : List (String × FormData)}
    (h : get_all_forms st now loader fr = (.ok v, st1)) : st1.forms_cache = v := by
  simp only [get_all_forms] at h
  split at h
  · rw [Prod.mk.injEq, Except.ok.injEq] at h
    rw [← h.2, h.1]
  · split at h
    · rw [Prod.mk.injEq, Except.ok.injEq] at h
      rw [← h.2, ← h.1]
    · split at h
      · rw [Prod.mk.injEq, Except.ok.injEq] at h
        rw [← h.2, h.1]
      · exact absurd (congrArg Prod.fst h) (by simp)

/-- C8 counterexample: a successful `get_all_forms` whose loader returned
an empty forms map. The empty dict is falsy, so a second get within the
TTL window re-invokes the loader: with a loader now returning one form,
the second get returns that form instead of the identical cached value. -/
theorem forms_empty_second_get_refetches_cex :
    get_all_forms initialCacheState 5 (.ok []) false =
        (.ok [], { initialCacheState with forms_cache := [], forms_cache_timestamp := 5 }) ∧
      is_cache_expired 6 5 = false ∧
      get_all_forms { initialCacheState with forms_cache := [], forms_cache_timestamp := 5 } 6
          (.ok [("1", ⟨"June GB", "", ""⟩)]) false =
        (.ok [("1", ⟨"June GB", "", ""⟩)],
          { initialCacheState with
            forms_cache := [("1", ⟨"June GB", "", ""⟩)], forms_cache_timestamp := 6 }) := by
  refine ⟨rfl, rfl, rfl⟩

/-- C8 (amended): after a get that returned `.ok v` and left an entry for
the key in the cache — which holds for every successful get except an
all-forms get that cached the empty map (and a products failure swallowed
into an empty list) — a second get of the same key within the TTL window
with no forced refresh returns the identical value and does not consult
its loader (the result is the same for every loader argument). -/
theorem cache_second_get_hits (st st1 : CacheState) (t1 t2 : Nat) (fid : String) :
    (∀ loader v, get_all_forms st t1 loader false = (.ok v, st1) → v ≠ [] →
      is_cache_expired t2 st1.forms_cache_timestamp = false →
      ∀ loader2, get_all_forms st1 t2 loader2 false = (.ok v, st1)) ∧
    (∀ loader v, get_products st fid t1 loader false = (.ok v, st1) →
      st1.products_cache.lookup fid = some v →
      is_cache_expired t2 ((st1.products_cache_timestamps.lookup fid).getD 0) = false →
      ∀ loader2, get_products st1 fid t2 loader2 false = (.ok v, st1)) ∧
    (∀ loader m, get_form_metadata st fid t1 loader false = (.ok m, st1) →
      st1.form_metadata_cache.lookup fid = some m →
      is_cache_expired t2 ((st1.form_metadata_cache_timestamps.lookup fid).getD 0) = false →
      ∀ loader2, get_form_metadata st1 fid t2 loader2 false = (.ok m, st1)) := by
  refine ⟨?_, ?_, ?_⟩
  · intro loader v h hv hexp loader2
    have hc : st1.forms_cache = v := get_all_forms_ok_cache h
    have hvne : v.isEmpty = false := by
      cases hv' : v
      · exact absurd hv' hv
      · rfl
    simp [get_all_forms, hc, hvne, hexp]
  · intro loader v h hv hexp loader2
    simp [get_products, hv, hexp]
  · intro loader m h hm hexp loader2
    simp [get_form_metadata, hm, hexp]

/-- The cache state after a first successful `get_products` for form "1"
at time 5 from the fresh helper. -/
def stateAfterProductsGet : CacheState :=
  { initialCacheState with
    products_cache := [("1", [⟨"house", "5", ""⟩])],
    products_cache_timestamps := [("1", 5)] }

/-- C8 witness: the products clause applied to a concrete first get at
time 5 and a second get at time 6 whose loader would fail — the second get
still returns the cached value and the unchanged state. -/
theorem cache_second_get_hits_witness :
    get_products initialCacheState "1" 5 (.ok [⟨"house", "5", ""⟩]) false =
        (.ok [⟨"house", "5", ""⟩], stateAfterProductsGet) ∧
      get_products stateAfterProductsGet "1" 6 (.error .externalService) false =
        (.ok [⟨"house", "5", ""⟩], stateAfterProductsGet) :=
  ⟨rfl,
    (cache_second_get_hits initialCacheState stateAfterProductsGet 5 6 "1").2.1
      (.ok [⟨"house", "5", ""⟩]) [⟨"house", "5", ""⟩] rfl rfl rfl (.error .externalService)⟩

/-! ## C9: invalid classifier responses behave like UNCLEAR -/

/-- Stage 3 treats any response that is not a known form id the same as
the literal UNCLEAR: both run the product-search fallback. -/
theorem stage3_invalid_eq_unclear (message_text : String)
    (available_forms : List (String × FormData)) (products : String → List Product)
    (result : String) (h1 : dictMem available_forms result = false)
    (h2 : result ≠ "UNCLEAR") :
    analyze_stage3 message_text available_forms products result =
      analyze_stage3 message_text available_forms products "UNCLEAR" := by
  simp [analyze_stage3, h1, h2]

/-- Stage 2 only consults the classifier response through stage 3, so the
same equivalence lifts. -/
theorem stage2_invalid_eq_unclear (message_text : String)
    (available_forms : List (String × FormData)) (products : String → List Product)
    (result : String) (h1 : dictMem available_forms result = false)
    (h2 : result ≠ "UNCLEAR") :
    analyze_stage2 message_text available_forms products result =
      analyze_stage2 message_text available_forms products "UNCLEAR" := by
  unfold analyze_stage2
  rcases hd : detect_month_in_message message_text with _ | month
  · exact stage3_invalid_eq_unclear message_text available_forms products result h1 h2
  · dsimp only
    rcases hf : find_forms_by_month month available_forms with _ | ⟨f1, _ | ⟨f2, t⟩⟩
    · exact stage3_invalid_eq_unclear message_text available_forms products result h1 h2
    · rfl
    · rfl

/-- C9: for every classifier response that is neither a known form id nor
the literal UNCLEAR, the resolver produces exactly the same resolution as
when the classifier answers UNCLEAR — both fall back to the product-fuzzy
pass over all forms. -/
theorem classifier_invalid_eq_unclear (message_text : String)
    (available_forms : List (String × FormData)) (products : String → List Product)
    (result : String) (h1 : dictMem available_forms result = false)
    (h2 : result ≠ "UNCLEAR") :
    analyze_message_for_gb message_text available_forms products result =
      analyze_message_for_gb message_text available_forms products "UNCLEAR" := by
  unfold analyze_message_for_gb
  split
  · rcases hp : find_form_by_product_names_all message_text available_forms products with _ | ⟨p, ps⟩
    · exact stage2_invalid_eq_unclear message_text available_forms products result h1 h2
    · rfl
  · exact stage2_invalid_eq_unclear message_text available_forms products result h1 h2

/-- C9 witness: the theorem applied at the garbage response "garbage"
against the January catalogs. -/
theorem classifier_invalid_eq_unclear_witness :
    dictMem januaryForms "garbage" = false ∧
      analyze_message_for_gb "which gb" januaryForms noProducts "garbage" =
        analyze_message_for_gb "which gb" januaryForms noProducts "UNCLEAR" :=
  ⟨by decide,
    classifier_invalid_eq_unclear "which gb" januaryForms noProducts "garbage" (by decide)
      (by decide)⟩
